import Mathlib

/-
  Verification development for the multi-backend database access layer of
  the vscode-db-viewer server (src/server/src/db/*.rs, src/server/src/command/cmd.rs).

  The Rust code is shallowly embedded: pure string processing is translated
  directly; driver calls (sqlx) are abstracted as oracle parameters; the
  tokio OnceCell and the RwLock-guarded registration map are modelled as
  explicit state passing, with an interleaving step relation for the
  concurrent cache claims.  Strings are modelled at char granularity
  (Rust operates on UTF-8 bytes; for the ASCII literals involved in every
  claim the two views agree).
-/

namespace DbViewer

/-! ## String helpers mirroring the Rust std functions used by the code -/

/-- Model of Rust str::starts_with for string patterns: list prefix test. -/
def strStartsWith (s pat : String) : Bool :=
  pat.toList.isPrefixOf s.toList

/-- Model of Rust str::contains for string patterns: some suffix of the
char list has the pattern as a prefix. -/
def listContainsAt (pat : List Char) : List Char → Bool
  | [] => pat.isEmpty
  | c :: rest => pat.isPrefixOf (c :: rest) || listContainsAt pat rest

/-- Model of Rust str::contains. -/
def strContains (s pat : String) : Bool :=
  listContainsAt pat.toList s.toList

/-- Model of Rust str::trim (whitespace stripped from both ends; Rust uses
Unicode White_Space, which agrees with Char.isWhitespace on ASCII input). -/
def rustTrim (s : String) : String :=
  String.mk (((((s.toList).dropWhile Char.isWhitespace).reverse).dropWhile
    Char.isWhitespace).reverse)

/-- Model of Rust str::to_lowercase (full Unicode in Rust; agrees with
Char.toLower on ASCII input, which is all the classifier compares). -/
def rustToLower (s : String) : String :=
  String.mk (s.toList.map Char.toLower)

/-! ## Value model: the subset of serde_json used by the query executors.
Objects are kept as insertion-ordered field lists. -/

inductive Json where
  | null : Json
  | str (s : String) : Json
  | arr (elems : List Json) : Json
  | obj (fields : List (String × Json)) : Json

/-! ## Scheme dispatch: DBConnection::from_options (connection.rs)

The Rust code classifies the connection string with a chain of
starts_with / contains tests, then constructs the matching backend pool
(DBSet::create, abstracted here as an oracle), or errors with no
construction at all. -/

/-- Supported database types (db/mod.rs). -/
inductive DatabaseType where
  | SQLite : DatabaseType
  | MySQL : DatabaseType
  | PostgreSQL : DatabaseType
deriving DecidableEq, Repr

/-- Connection options (connection.rs DBConnectionOptions). -/
structure DBConnectionOptions where
  connection_string : String
deriving DecidableEq, Repr

/-- The scheme-classification part of DBConnection::from_options
(connection.rs lines 65-84), translated test for test: note the second and
third arms use str::contains, not starts_with, for the double-slash forms. -/
def parseDbType (connection_string : String) : Option DatabaseType :=
  if strStartsWith connection_string "sqlite:" then
    some DatabaseType.SQLite
  else if strStartsWith connection_string "mysql:" ||
      strContains connection_string "mysql://" then
    some DatabaseType.MySQL
  else if strStartsWith connection_string "postgres:" ||
      strContains connection_string "postgresql://" then
    some DatabaseType.PostgreSQL
  else
    none

/-- DBConnection::from_options: classify, then construct the matching
backend (DBSet::create, abstracted as the oracle argument); an
unrecognized scheme returns the error before any construction. -/
def from_options (P : Type) (create : DatabaseType → String → Except String P)
    (options : DBConnectionOptions) : Except String P :=
  match parseDbType options.connection_string with
  | none => Except.error "Unsupported database type in connection string"
  | some t => create t options.connection_string

/-! ## Connection cache: from_cache (db/mod.rs)

DB_POOL_MAP is an RwLock-guarded HashMap from identifier to
Arc of DBConnection.  The map is modelled as an insertion-ordered
association list whose insert overwrites an existing key (HashMap::insert
semantics); a handle is a value tagged with a creation counter so that
distinct Arc allocations stay distinguishable. -/

/-- A registered DBConnection value.  The uid is the model's stand-in for
Arc identity: each `DBConnection { options, pool: OnceCell::new() }`
allocation gets a fresh uid.  The lazily initialized pool cell is
modelled separately (see get_pool below). -/
structure Handle where
  uid : Nat
  options : DBConnectionOptions
deriving DecidableEq, Repr

/-- HashMap::get on the registration map. -/
def mapLookup : List (String × Handle) → String → Option Handle
  | [], _ => none
  | (k, v) :: rest, id => if k = id then some v else mapLookup rest id

/-- HashMap::insert on the registration map (overwrites an existing key,
dropping the previous value). -/
def mapInsert : List (String × Handle) → String → Handle → List (String × Handle)
  | [], id, h => [(id, h)]
  | (k, v) :: rest, id, h =>
      if k = id then (id, h) :: rest else (k, v) :: mapInsert rest id h

/-- Cache state: the registration map plus the model's allocation counter. -/
structure CacheState where
  map : List (String × Handle)
  next : Nat
deriving DecidableEq, Repr

/-- Sequential (single-caller) semantics of from_cache (db/mod.rs 25-45):
read-lock lookup; on a hit return the mapped handle; on a miss build a
fresh DBConnection, write-lock insert it, then re-read the map and unwrap
(the getD default is unreachable after the insert, see
mapLookup_mapInsert_self). -/
def from_cache (id : String) (option : DBConnectionOptions) (s : CacheState) :
    Handle × CacheState :=
  match mapLookup s.map id with
  | some v => (v, s)
  | none =>
      let db_connection : Handle := ⟨s.next, option⟩
      let map1 := mapInsert s.map id db_connection
      ((mapLookup map1 id).getD db_connection, ⟨map1, s.next + 1⟩)

/-! ### Interleaved semantics of from_cache for the concurrency claim.

Each lock-guarded section of from_cache is one atomic step; between
sections other callers may run.  Two callers A and B execute from_cache
on the same identifier; a schedule is the list of which caller steps
next. -/

/-- Program counter of one caller inside from_cache: before the read-lock
existence check, before the write-lock insert, before the final
read-lock re-read, or finished holding a handle. -/
inductive CallerPC where
  | atCheck : CallerPC
  | atInsert : CallerPC
  | atReadback : CallerPC
  | finished (h : Handle) : CallerPC
deriving DecidableEq, Repr

inductive Caller where
  | A : Caller
  | B : Caller
deriving DecidableEq, Repr

/-- Interleaving state: shared cache, each caller's program counter, and a
count of performed map inserts (handle registrations). -/
structure RaceState where
  cache : CacheState
  pcA : CallerPC
  pcB : CallerPC
  inserts : Nat
deriving DecidableEq, Repr

def RaceState.pcOf (s : RaceState) : Caller → CallerPC
  | Caller.A => s.pcA
  | Caller.B => s.pcB

def RaceState.setPc (s : RaceState) : Caller → CallerPC → RaceState
  | Caller.A, pc => { s with pcA := pc }
  | Caller.B, pc => { s with pcB := pc }

/-- One atomic section of from_cache executed by caller c.  The check and
the insert are separate critical sections, exactly as in the code: the
insert is performed without re-checking for an existing entry. -/
def callerStep (id : String) (opt : Caller → DBConnectionOptions) (c : Caller)
    (s : RaceState) : RaceState :=
  match s.pcOf c with
  | CallerPC.atCheck =>
      match mapLookup s.cache.map id with
      | some v => s.setPc c (CallerPC.finished v)
      | none => s.setPc c CallerPC.atInsert
  | CallerPC.atInsert =>
      let h : Handle := ⟨s.cache.next, opt c⟩
      let s1 : RaceState :=
        { s with
          cache := ⟨mapInsert s.cache.map id h, s.cache.next + 1⟩,
          inserts := s.inserts + 1 }
      s1.setPc c CallerPC.atReadback
  | CallerPC.atReadback =>
      match mapLookup s.cache.map id with
      | some v => s.setPc c (CallerPC.finished v)
      | none => s
  | CallerPC.finished _ => s

/-- Run a schedule of caller steps. -/
def runSchedule (id : String) (opt : Caller → DBConnectionOptions)
    (sched : List Caller) (s : RaceState) : RaceState :=
  sched.foldl (fun st c => callerStep id opt c st) s

/-! ## Lazy pool initialization: DBConnection::get_pool (connection.rs 99-109)

The tokio OnceCell is modelled as `Option (Option P)`: none while
uninitialized, `some r` once get_or_init has stored the outcome r (itself
an Option: from_options failure is recorded as none, permanently). -/

/-- A DBConnection together with its OnceCell state. -/
structure DBConnectionState (P : Type) where
  options : DBConnectionOptions
  pool : Option (Option P)
deriving DecidableEq, Repr

/-- Result of one get_pool call: the returned pool option, the handle
state afterwards, and whether this call ran the initializer (the
get_or_init closure around from_options). -/
structure GetPoolOut (P : Type) where
  result : Option P
  conn : DBConnectionState P
  ranInit : Bool
deriving DecidableEq, Repr

/-- DBConnection::get_pool: OnceCell::get_or_init — return the stored
outcome if present, otherwise run from_options (abstracted as the init
oracle), store its outcome and return it. -/
def get_pool (P : Type) (init : DBConnectionOptions → Option P)
    (c : DBConnectionState P) : GetPoolOut P :=
  match c.pool with
  | some r => ⟨r, c, false⟩
  | none =>
      let r := init c.options
      ⟨r, { c with pool := some r }, true⟩

/-- Handle state after n get_pool calls. -/
def get_pool_calls (P : Type) (init : DBConnectionOptions → Option P)
    (c : DBConnectionState P) : Nat → DBConnectionState P
  | 0 => c
  | n + 1 => (get_pool P init (get_pool_calls P init c n)).conn

/-- Number of times the initializer ran over the first n get_pool calls. -/
def get_pool_init_runs (P : Type) (init : DBConnectionOptions → Option P)
    (c : DBConnectionState P) : Nat → Nat
  | 0 => 0
  | n + 1 =>
      get_pool_init_runs P init c n +
        (if (get_pool P init (get_pool_calls P init c n)).ranInit then 1 else 0)

/-! ## Query classification (shared by all three execute_query methods)

Each backend tests `query.trim().to_lowercase().starts_with("select")`. -/

def isSelectQuery (query : String) : Bool :=
  strStartsWith (rustToLower (rustTrim query)) "select"

/-! ## SQLite / PostgreSQL read-path cell conversion (sqlite.rs 44-51,
postgres.rs 44-51)

For each column the code runs `let value: Option String = row.try_get(i)?`
— the try_get outcome is a Result whose Err is propagated by the question
mark operator — and then inserts `value.unwrap_or_default()` as a JSON
string.  A cell is therefore modelled as that try_get outcome: error, or
success carrying an optional string (none encodes SQL NULL). -/

/-- Outcome of row.try_get of an optional String at one column. -/
abbrev SqlCell := Except String (Option String)

/-- The value stored for one successfully decoded cell:
value.unwrap_or_default() wrapped as a JSON string. -/
def textCellValue (value : Option String) : Json :=
  Json.str (value.getD "")

/-- The per-row conversion loop of sqlite.rs / postgres.rs execute_query:
each cell's try_get error propagates out of the loop via the question
mark; successes accumulate as (column name, string value) fields. -/
def textRowFields : List (String × SqlCell) → Except String (List (String × Json))
  | [] => Except.ok []
  | (column_name, cell) :: rest =>
      match cell with
      | Except.error e => Except.error e
      | Except.ok value =>
          match textRowFields rest with
          | Except.error e => Except.error e
          | Except.ok tail => Except.ok ((column_name, textCellValue value) :: tail)

/-- The rows loop: convert every fetched row to a JSON object, the first
cell error aborting the whole conversion. -/
def textRowsToJson : List (List (String × SqlCell)) → Except String (List Json)
  | [] => Except.ok []
  | row :: rest =>
      match textRowFields row with
      | Except.error e => Except.error e
      | Except.ok fields =>
          match textRowsToJson rest with
          | Except.error e => Except.error e
          | Except.ok tail => Except.ok (Json.obj fields :: tail)

/-- SQLiteOperations::execute_query (sqlite.rs 33-63).  Driver calls are
oracles: fetch_all is the outcome of sqlx fetch_all (the fetched rows,
each cell already paired with its try_get outcome), execute is the
outcome of sqlx execute (rows_affected). -/
def sqliteExecuteQuery (query : String)
    (fetch_all : Except String (List (List (String × SqlCell))))
    (execute : Except String Nat) : Except String (Json × Nat) :=
  if isSelectQuery query then
    match fetch_all with
    | Except.error e => Except.error e
    | Except.ok rows =>
        match textRowsToJson rows with
        | Except.error e => Except.error e
        | Except.ok objs => Except.ok (Json.arr objs, rows.length)
  else
    match execute with
    | Except.error e => Except.error e
    | Except.ok rows_affected => Except.ok (Json.null, rows_affected)

/-- PostgreSQLOperations::execute_query (postgres.rs 33-62): the method
body is identical to the SQLite one, cell for cell. -/
def postgresExecuteQuery (query : String)
    (fetch_all : Except String (List (List (String × SqlCell))))
    (execute : Except String Nat) : Except String (Json × Nat) :=
  sqliteExecuteQuery query fetch_all execute

/-! ## Base64 (standard alphabet, padded) as used by mysql.rs via
base64::engine::general_purpose::STANDARD.encode -/

/-- The standard base64 alphabet. -/
def b64Alphabet : List Char :=
  ("ABCDEFGHIJKLMNOPQRSTUVWXYZabcdefghijklmnopqrstuvwxyz0123456789+/").toList

/-- Character for a six-bit group. -/
def sextetChar (n : Nat) : Char :=
  b64Alphabet.getD n 'A'

/-- Index of a character in the base64 alphabet. -/
def b64CharIndex (c : Char) : Option Nat :=
  (List.range 64).find? (fun i => sextetChar i = c)

/-- Standard base64 encoding of a byte list, three bytes to four output
characters, padded with the equals sign. -/
def base64EncodeCore : List (Fin 256) → List Char
  | [] => []
  | [b0] =>
      [sextetChar (b0.val / 4), sextetChar (b0.val % 4 * 16), '=', '=']
  | [b0, b1] =>
      [sextetChar (b0.val / 4), sextetChar (b0.val % 4 * 16 + b1.val / 16),
        sextetChar (b1.val % 16 * 4), '=']
  | b0 :: b1 :: b2 :: rest =>
      sextetChar (b0.val / 4) ::
        sextetChar (b0.val % 4 * 16 + b1.val / 16) ::
        sextetChar (b1.val % 16 * 4 + b2.val / 64) ::
        sextetChar (b2.val % 64) ::
        base64EncodeCore rest

def base64Encode (bytes : List (Fin 256)) : String :=
  String.mk (base64EncodeCore bytes)

/-- Build a byte from a value already known to be below 256. -/
def toByte (x : Nat) : Fin 256 :=
  ⟨x % 256, Nat.mod_lt x (by omega)⟩

/-- Standard base64 decoding (witnessing that the encoding is
invertible): groups of four characters, the padded final group yielding
one or two bytes. -/
def base64DecodeCore : List Char → Option (List (Fin 256))
  | [] => some []
  | c0 :: c1 :: c2 :: c3 :: rest =>
      match b64CharIndex c0, b64CharIndex c1 with
      | some s0, some s1 =>
          if c2 = '=' then
            if c3 = '=' ∧ rest = [] then
              some [toByte (s0 * 4 + s1 / 16)]
            else none
          else
            match b64CharIndex c2 with
            | some s2 =>
                if c3 = '=' then
                  if rest = [] then
                    some [toByte (s0 * 4 + s1 / 16), toByte (s1 % 16 * 16 + s2 / 4)]
                  else none
                else
                  match b64CharIndex c3 with
                  | some s3 =>
                      match base64DecodeCore rest with
                      | some tail =>
                          some (toByte (s0 * 4 + s1 / 16) ::
                            toByte (s1 % 16 * 16 + s2 / 4) ::
                            toByte (s2 % 4 * 64 + s3) :: tail)
                      | none => none
                  | none => none
            | none => none
      | _, _ => none
  | _ => none

/-! ## MySQL read-path cell conversion (mysql.rs 44-81)

For each column the code runs an if-let chain of typed try_get accessors,
first Ok wins: optional String, optional byte vector, optional 64-bit
integer, optional 64-bit float; if all four fail it emits the unknown-type
marker built from the column's driver type name.  A SQL NULL decodes as
Ok(None) under any accessor, producing JSON null in whichever branch
first succeeds.  A cell is modelled by the four accessor outcomes plus
the driver type name.  The 64-bit float accessor's value is carried
already stringified (Rust f64 to_string), since floating-point formatting
is outside the embedding. -/

structure MySqlCell where
  asString : Except String (Option String)
  asBytes : Except String (Option (List (Fin 256)))
  asInt : Except String (Option Int)
  asFloat : Except String (Option String)
  typeName : String

/-- The if-let-else-if chain of mysql.rs 47-78 for one cell. -/
def mysqlCellValue (c : MySqlCell) : Json :=
  match c.asString with
  | Except.ok (some s) => Json.str s
  | Except.ok none => Json.null
  | Except.error _ =>
      match c.asBytes with
      | Except.ok (some bytes) =>
          Json.str ("(binary) " ++ base64Encode bytes)
      | Except.ok none => Json.null
      | Except.error _ =>
          match c.asInt with
          | Except.ok (some n) => Json.str (toString n)
          | Except.ok none => Json.null
          | Except.error _ =>
              match c.asFloat with
              | Except.ok (some f) => Json.str f
              | Except.ok none => Json.null
              | Except.error _ =>
                  Json.str ("(unknown type: " ++ c.typeName ++ ")")

/-- One MySQL row converted to a JSON object (the inner column loop of
mysql.rs execute_query; no conversion in the chain can fail). -/
def mysqlRowToJson (row : List (String × MySqlCell)) : Json :=
  Json.obj (row.map (fun p => (p.1, mysqlCellValue p.2)))

/-- MySQLOperations::execute_query (mysql.rs 34-92), driver calls as
oracles like the SQLite model. -/
def mysqlExecuteQuery (query : String)
    (fetch_all : Except String (List (List (String × MySqlCell))))
    (execute : Except String Nat) : Except String (Json × Nat) :=
  if isSelectQuery query then
    match fetch_all with
    | Except.error e => Except.error e
    | Except.ok rows =>
        Except.ok (Json.arr (rows.map mysqlRowToJson), rows.length)
  else
    match execute with
    | Except.error e => Except.error e
    | Except.ok rows_affected => Except.ok (Json.null, rows_affected)

/-! ## check_connection (mysql.rs 128-133, sqlite.rs 96-101,
postgres.rs 95-100; the three bodies are identical)

The code executes "SELECT 1", propagates any driver error with the
question mark, and otherwise returns Ok(true). -/

def check_connection (execute : String → Except String Unit) : Except String Bool :=
  match execute "SELECT 1" with
  | Except.error e => Except.error e
  | Except.ok _ => Except.ok true

/-! ## Command handlers (command/cmd.rs)

Handler outcomes distinguish a typed error (anyhow Result Err returned to
the dispatch boundary) from a process panic. -/

inductive HandlerOutcome (α : Type) where
  | ok (v : α) : HandlerOutcome α
  | err (msg : String) : HandlerOutcome α
  | panicked (msg : String) : HandlerOutcome α
deriving DecidableEq, Repr

/-- Rust Vec indexing v[i]: panics when the index is out of bounds. -/
def vecIndex (α : Type) (xs : List α) (i : Nat) : HandlerOutcome α :=
  match xs.get? i with
  | some v => HandlerOutcome.ok v
  | none => HandlerOutcome.panicked "index out of bounds"

/-- ExecuteCommand::handler argument access (cmd.rs 63-66):
params.arguments[0], an unchecked index into the positional arguments. -/
def executeCommandArg0 (arguments : List Json) : HandlerOutcome Json :=
  vecIndex Json arguments 0

/-- CheckConnectionCommand::handler argument access (cmd.rs 107-108):
params.arguments[0], likewise unchecked. -/
def checkConnectionArg0 (arguments : List Json) : HandlerOutcome Json :=
  vecIndex Json arguments 0

/-- The pool-acquisition step of ExecuteCommand::execute_sql_query
(cmd.rs 42-47): get_pool on the resolved handle, with None turned into a
typed anyhow error by ok_or_else. -/
def execute_sql_query_pool (P : Type) (init : DBConnectionOptions → Option P)
    (connect : DBConnectionState P) : HandlerOutcome P × DBConnectionState P :=
  let out := get_pool P init connect
  match out.result with
  | some pool => (HandlerOutcome.ok pool, out.conn)
  | none => (HandlerOutcome.err "Failed to get pool from connection", out.conn)

/-- The pool-acquisition step of CheckConnectionCommand::handler
(cmd.rs 107-117): get_pool on the resolved handle followed by unwrap,
which panics when the handle's initialization failed. -/
def check_connection_pool (P : Type) (init : DBConnectionOptions → Option P)
    (connect : DBConnectionState P) : HandlerOutcome P × DBConnectionState P :=
  let out := get_pool P init connect
  match out.result with
  | some pool => (HandlerOutcome.ok pool, out.conn)
  | none =>
      (HandlerOutcome.panicked "called Option::unwrap on a None value", out.conn)

/-! ## Helper lemmas -/

/-- Re-reading the map right after HashMap::insert finds the inserted
handle (the unwrap at the end of from_cache cannot fail sequentially). -/
theorem mapLookup_mapInsert_self (m : List (String × Handle)) (id : String)
    (h : Handle) : mapLookup (mapInsert m id h) id = some h := by
  induction m with
  | nil => simp [mapInsert, mapLookup]
  | cons kv rest ih =>
      by_cases hk : kv.1 = id
      · simp [mapInsert, hk, mapLookup]
      · simpa [mapInsert, hk, mapLookup] using ih

/-- No base64 alphabet character is the padding character. -/
theorem sextetChar_ne_pad {n : Nat} (h : n < 64) : sextetChar n ≠ '=' := by
  have hall : ∀ i : Fin 64, sextetChar i.val ≠ '=' := by decide
  exact hall ⟨n, h⟩

/-- The alphabet index function inverts sextetChar on six-bit values. -/
theorem b64CharIndex_sextetChar {n : Nat} (h : n < 64) :
    b64CharIndex (sextetChar n) = some n := by
  have hall : ∀ i : Fin 64, b64CharIndex (sextetChar i.val) = some i.val := by decide
  exact hall ⟨n, h⟩

/-- Standard base64 decoding inverts the encoding on every byte list. -/
theorem base64_roundtrip : ∀ bs : List (Fin 256),
    base64DecodeCore (base64EncodeCore bs) = some bs
  | [] => by simp [base64EncodeCore, base64DecodeCore]
  | [b0] => by
      have hb0 := b0.isLt
      simp only [base64EncodeCore, base64DecodeCore]
      rw [b64CharIndex_sextetChar (by omega), b64CharIndex_sextetChar (by omega)]
      simp [toByte, Fin.ext_iff]
      omega
  | [b0, b1] => by
      have hb0 := b0.isLt
      have hb1 := b1.isLt
      simp only [base64EncodeCore, base64DecodeCore]
      rw [b64CharIndex_sextetChar (by omega), b64CharIndex_sextetChar (by omega),
        b64CharIndex_sextetChar (by omega)]
      simp [sextetChar_ne_pad (by omega : (b1.val % 16 * 4) < 64), toByte, Fin.ext_iff]
      omega
  | b0 :: b1 :: b2 :: rest => by
      have hb0 := b0.isLt
      have hb1 := b1.isLt
      have hb2 := b2.isLt
      have ih := base64_roundtrip rest
      simp only [base64EncodeCore, base64DecodeCore]
      rw [b64CharIndex_sextetChar (by omega), b64CharIndex_sextetChar (by omega),
        b64CharIndex_sextetChar (by omega), b64CharIndex_sextetChar (by omega)]
      simp [sextetChar_ne_pad (by omega : (b1.val % 16 * 4 + b2.val / 64) < 64),
        sextetChar_ne_pad (by omega : (b2.val % 64) < 64), ih, toByte, Fin.ext_iff]
      omega

/-- A second get_pool call on the handle state left by a first call
returns the first call's outcome, leaves the state unchanged, and does
not run the initializer. -/
theorem get_pool_stable (P : Type) (init : DBConnectionOptions → Option P)
    (c : DBConnectionState P) :
    get_pool P init (get_pool P init c).conn =
      ⟨(get_pool P init c).result, (get_pool P init c).conn, false⟩ := by
  match hc : c.pool with
  | some r => simp [get_pool, hc]
  | none => simp [get_pool, hc]

/-! ## Claim theorems -/

/-- C5 counterexample: the string "db mysql://h" carries none of the
supported scheme prefixes (sqlite:, mysql:, mysql://, postgres:,
postgresql://), yet from_options selects the MySQL backend instead of
yielding a configuration error, because the code tests str::contains,
not a prefix, for the double-slash forms. -/
theorem parseDbType_contains_cex :
    strStartsWith "db mysql://h" "sqlite:" = false
    ∧ strStartsWith "db mysql://h" "mysql:" = false
    ∧ strStartsWith "db mysql://h" "mysql://" = false
    ∧ strStartsWith "db mysql://h" "postgres:" = false
    ∧ strStartsWith "db mysql://h" "postgresql://" = false
    ∧ parseDbType "db mysql://h" = some DatabaseType.MySQL := by
  decide

/-- C5 (amended): backend selection tests, in order: the sqlite: prefix;
then the mysql: prefix or a mysql:// substring anywhere; then the
postgres: prefix or a postgresql:// substring anywhere.  A string
matching none of the five tests yields the configuration error with no
backend construction and no default. -/
theorem parseDbType_classification (s : String) :
    (strStartsWith s "sqlite:" = true → parseDbType s = some DatabaseType.SQLite)
    ∧ (strStartsWith s "sqlite:" = false →
        (strStartsWith s "mysql:" || strContains s "mysql://") = true →
        parseDbType s = some DatabaseType.MySQL)
    ∧ (strStartsWith s "sqlite:" = false →
        (strStartsWith s "mysql:" || strContains s "mysql://") = false →
        (strStartsWith s "postgres:" || strContains s "postgresql://") = true →
        parseDbType s = some DatabaseType.PostgreSQL)
    ∧ (strStartsWith s "sqlite:" = false →
        (strStartsWith s "mysql:" || strContains s "mysql://") = false →
        (strStartsWith s "postgres:" || strContains s "postgresql://") = false →
        parseDbType s = none
        ∧ ∀ (P : Type) (create : DatabaseType → String → Except String P),
            from_options P create ⟨s⟩ =
              Except.error "Unsupported database type in connection string") := by
  refine ⟨fun h1 => ?_, fun h1 h2 => ?_, fun h1 h2 h3 => ?_, fun h1 h2 h3 => ?_⟩
  · simp [parseDbType, h1]
  · simp [parseDbType, h1, h2]
  · simp [parseDbType, h1, h2, h3]
  · refine ⟨by simp [parseDbType, h1, h2, h3], fun P create => ?_⟩
    simp [from_options, parseDbType, h1, h2, h3]

/-- C5 witness: the amended classification evaluated on one concrete
string per branch. -/
theorem parseDbType_classification_witness :
    parseDbType "sqlite::memory:" = some DatabaseType.SQLite
    ∧ parseDbType "mysql://u@h/db" = some DatabaseType.MySQL
    ∧ parseDbType "postgresql://u@h/db" = some DatabaseType.PostgreSQL
    ∧ parseDbType "redis://h" = none :=
  ⟨(parseDbType_classification "sqlite::memory:").1 (by decide),
    (parseDbType_classification "mysql://u@h/db").2.1 (by decide) (by decide),
    (parseDbType_classification "postgresql://u@h/db").2.2.1 (by decide) (by decide)
      (by decide),
    ((parseDbType_classification "redis://h").2.2.2 (by decide) (by decide)
      (by decide)).1⟩

/-- C9: every backend's check_connection issues "SELECT 1" and returns
true exactly when that statement executes successfully; an execution
error is propagated and the function never returns false. -/
theorem check_connection_spec (execute : String → Except String Unit) :
    (check_connection execute = Except.ok true ↔ execute "SELECT 1" = Except.ok ())
    ∧ (∀ e, execute "SELECT 1" = Except.error e →
        check_connection execute = Except.error e)
    ∧ check_connection execute ≠ Except.ok false := by
  refine ⟨⟨fun h => ?_, fun h => ?_⟩, fun e he => ?_, fun h => ?_⟩
  · revert h
    unfold check_connection
    match hx : execute "SELECT 1" with
    | Except.error e => intro h; exact absurd h (by simp)
    | Except.ok u => intro _; rfl
  · simp [check_connection, h]
  · simp [check_connection, he]
  · revert h
    unfold check_connection
    match hx : execute "SELECT 1" with
    | Except.error e => simp
    | Except.ok u => simp

/-- C9 witness: a failing driver call propagates; a succeeding one
returns true. -/
theorem check_connection_spec_witness :
    check_connection (fun _ => Except.error "connection refused")
      = Except.error "connection refused"
    ∧ check_connection (fun _ => Except.ok ()) = Except.ok true :=
  ⟨(check_connection_spec (fun _ => Except.error "connection refused")).2.1
      "connection refused" rfl,
    (check_connection_spec (fun _ => Except.ok ())).1.2 rfl⟩

/-- C4: with a handle whose lazy initialization previously failed (the
OnceCell records None), the execute-query path returns the typed
pool-unavailable error to the dispatch boundary, but the
check-connection handler unwraps the None and panics instead of
returning the typed failure the spec requires. -/
theorem pool_unavailable_handlers (P : Type)
    (init : DBConnectionOptions → Option P) (opt : DBConnectionOptions) :
    (execute_sql_query_pool P init ⟨opt, some none⟩).1
      = HandlerOutcome.err "Failed to get pool from connection"
    ∧ (check_connection_pool P init ⟨opt, some none⟩).1
      = HandlerOutcome.panicked "called Option::unwrap on a None value" := by
  constructor <;> rfl

/-- C10: both command handlers index params.arguments[0] without a bounds
check: on an empty argument list the access panics, and on a non-empty
list it yields the first argument. -/
theorem handler_arg0_partiality :
    executeCommandArg0 [] = HandlerOutcome.panicked "index out of bounds"
    ∧ checkConnectionArg0 [] = HandlerOutcome.panicked "index out of bounds"
    ∧ (∀ a rest, executeCommandArg0 (a :: rest) = HandlerOutcome.ok a)
    ∧ (∀ a rest, checkConnectionArg0 (a :: rest) = HandlerOutcome.ok a) :=
  ⟨rfl, rfl, fun _ _ => rfl, fun _ _ => rfl⟩

/-- C2: resolve(id, p1) followed by resolve(id, p2) returns the same
handle both times and the second call leaves the cache untouched, for
every starting state; when id is fresh the handle returned by both calls
was constructed from p1, so the second call's parameters are ignored and
never reconfigure or replace the cached handle. -/
theorem from_cache_first_writer_wins (id : String)
    (p1 p2 : DBConnectionOptions) (s : CacheState) :
    ((from_cache id p2 (from_cache id p1 s).2).1 = (from_cache id p1 s).1
      ∧ (from_cache id p2 (from_cache id p1 s).2).2 = (from_cache id p1 s).2)
    ∧ (mapLookup s.map id = none → (from_cache id p1 s).1.options = p1) := by
  match hm : mapLookup s.map id with
  | some h => simp [from_cache, hm]
  | none => simp [from_cache, hm, mapLookup_mapInsert_self]

/-- C2 witness: a fresh identifier resolved with sqlite parameters and
then with different mysql parameters yields the p1-built handle twice. -/
theorem from_cache_first_writer_wins_witness :
    (from_cache "c1" ⟨"mysql://u@h/db"⟩
        (from_cache "c1" ⟨"sqlite:a.db"⟩ ⟨[], 0⟩).2).1
      = (from_cache "c1" ⟨"sqlite:a.db"⟩ ⟨[], 0⟩).1
    ∧ (from_cache "c1" ⟨"sqlite:a.db"⟩ ⟨[], 0⟩).1.options = ⟨"sqlite:a.db"⟩ :=
  ⟨(from_cache_first_writer_wins "c1" ⟨"sqlite:a.db"⟩ ⟨"mysql://u@h/db"⟩
      ⟨[], 0⟩).1.1,
    (from_cache_first_writer_wins "c1" ⟨"sqlite:a.db"⟩ ⟨"mysql://u@h/db"⟩
      ⟨[], 0⟩).2 rfl⟩

/-- C1 counterexample: an interleaving of two first-time callers of
from_cache on the fresh identifier "conn1" — both pass the read-lock
existence check before either takes the write lock — performs two map
inserts (two handle registrations, the second overwriting the first) and
hands the two callers two distinct handles, because the insert is not
atomic with the existence check. -/
theorem from_cache_race_two_registrations :
    (runSchedule "conn1" (fun _ => ⟨"sqlite::memory:"⟩)
        [Caller.A, Caller.B, Caller.A, Caller.A, Caller.B, Caller.B]
        ⟨⟨[], 0⟩, CallerPC.atCheck, CallerPC.atCheck, 0⟩).inserts = 2
    ∧ (runSchedule "conn1" (fun _ => ⟨"sqlite::memory:"⟩)
        [Caller.A, Caller.B, Caller.A, Caller.A, Caller.B, Caller.B]
        ⟨⟨[], 0⟩, CallerPC.atCheck, CallerPC.atCheck, 0⟩).pcA
      = CallerPC.finished ⟨0, ⟨"sqlite::memory:"⟩⟩
    ∧ (runSchedule "conn1" (fun _ => ⟨"sqlite::memory:"⟩)
        [Caller.A, Caller.B, Caller.A, Caller.A, Caller.B, Caller.B]
        ⟨⟨[], 0⟩, CallerPC.atCheck, CallerPC.atCheck, 0⟩).pcB
      = CallerPC.finished ⟨1, ⟨"sqlite::memory:"⟩⟩
    ∧ (⟨0, ⟨"sqlite::memory:"⟩⟩ : Handle) ≠ ⟨1, ⟨"sqlite::memory:"⟩⟩ := by
  decide

/-- C1 (amended): the existence check and the insert are separate
critical sections with no re-check, so concurrent first-time callers may
each register a handle and receive distinct handles; when the callers do
not interleave — the first completes all three sections before the
second starts — exactly one handle registration occurs and both callers
receive that same handle. -/
theorem from_cache_sequential_single_registration (id : String)
    (p : DBConnectionOptions) (s0 : CacheState)
    (hfresh : mapLookup s0.map id = none) :
    (runSchedule id (fun _ => p) [Caller.A, Caller.A, Caller.A, Caller.B]
        ⟨s0, CallerPC.atCheck, CallerPC.atCheck, 0⟩).inserts = 1
    ∧ (runSchedule id (fun _ => p) [Caller.A, Caller.A, Caller.A, Caller.B]
        ⟨s0, CallerPC.atCheck, CallerPC.atCheck, 0⟩).pcA
      = CallerPC.finished ⟨s0.next, p⟩
    ∧ (runSchedule id (fun _ => p) [Caller.A, Caller.A, Caller.A, Caller.B]
        ⟨s0, CallerPC.atCheck, CallerPC.atCheck, 0⟩).pcB
      = CallerPC.finished ⟨s0.next, p⟩ := by
  simp [runSchedule, callerStep, RaceState.pcOf, RaceState.setPc, hfresh,
    mapLookup_mapInsert_self]

/-- C1 witness: the non-interleaved schedule evaluated on a concrete
fresh identifier. -/
theorem from_cache_sequential_single_registration_witness :
    (runSchedule "conn2" (fun _ => ⟨"postgres://u@h/db"⟩)
        [Caller.A, Caller.A, Caller.A, Caller.B]
        ⟨⟨[], 0⟩, CallerPC.atCheck, CallerPC.atCheck, 0⟩).inserts = 1
    ∧ (runSchedule "conn2" (fun _ => ⟨"postgres://u@h/db"⟩)
        [Caller.A, Caller.A, Caller.A, Caller.B]
        ⟨⟨[], 0⟩, CallerPC.atCheck, CallerPC.atCheck, 0⟩).pcA
      = CallerPC.finished ⟨0, ⟨"postgres://u@h/db"⟩⟩
    ∧ (runSchedule "conn2" (fun _ => ⟨"postgres://u@h/db"⟩)
        [Caller.A, Caller.A, Caller.A, Caller.B]
        ⟨⟨[], 0⟩, CallerPC.atCheck, CallerPC.atCheck, 0⟩).pcB
      = CallerPC.finished ⟨0, ⟨"postgres://u@h/db"⟩⟩ :=
  from_cache_sequential_single_registration "conn2" ⟨"postgres://u@h/db"⟩
    ⟨[], 0⟩ rfl

/-- C3 counterexample: a SELECT whose single cell fails its string decode
makes the whole execute_query fail with that decode error — the code
propagates row.try_get's Err with the question mark instead of
substituting the empty string. -/
theorem text_decode_error_cex :
    sqliteExecuteQuery "SELECT a FROM t"
      (Except.ok [[("a", Except.error "decode err")]]) (Except.ok 0)
      = Except.error "decode err"
    ∧ postgresExecuteQuery "SELECT a FROM t"
      (Except.ok [[("a", Except.error "decode err")]]) (Except.ok 0)
      = Except.error "decode err" :=
  ⟨rfl, rfl⟩

/-- C3 (amended): in the PostgreSQL and SQLite read paths each cell gets
one string-decode attempt; a successfully decoded SQL NULL is replaced
by the empty string in the row-object, while a decode failure is
propagated as a query error and fails the whole query. -/
theorem text_decode_fallback :
    textCellValue none = Json.str ""
    ∧ (∀ s, textCellValue (some s) = Json.str s)
    ∧ (∀ name e rest, textRowFields ((name, Except.error e) :: rest)
        = Except.error e)
    ∧ (∀ q rows e execute, isSelectQuery q = true →
        textRowsToJson rows = Except.error e →
        sqliteExecuteQuery q (Except.ok rows) execute = Except.error e
        ∧ postgresExecuteQuery q (Except.ok rows) execute = Except.error e) := by
  refine ⟨rfl, fun s => rfl, fun name e rest => rfl, fun q rows e execute hq hr => ?_⟩
  constructor <;> simp [postgresExecuteQuery, sqliteExecuteQuery, hq, hr]

/-- C3 witness: the NULL fallback and the error propagation evaluated on
concrete inputs. -/
theorem text_decode_fallback_witness :
    textCellValue none = Json.str ""
    ∧ sqliteExecuteQuery "select b from t"
        (Except.ok [[("b", Except.ok (some "x")), ("c", Except.error "boom")]])
        (Except.ok 0)
      = Except.error "boom" :=
  ⟨text_decode_fallback.1,
    ((text_decode_fallback.2.2.2 "select b from t"
      [[("b", Except.ok (some "x")), ("c", Except.error "boom")]]
      "boom" (Except.ok 0) (by decide) rfl).1)⟩

/-- C6: every backend's execute_query classifies the statement by
trimming it, lowercasing it, and testing for the select prefix; on the
read path it returns the row-object array with row count equal to the
number of fetched rows, and on the write path it returns the null value
with the driver-reported affected-row count. -/
theorem execute_query_dispatch (q : String)
    (fetchS : Except String (List (List (String × SqlCell))))
    (execS : Except String Nat)
    (fetchM : Except String (List (List (String × MySqlCell))))
    (execM : Except String Nat) :
    isSelectQuery q = strStartsWith (rustToLower (rustTrim q)) "select"
    ∧ (isSelectQuery q = true →
        (∀ rows objs, fetchS = Except.ok rows →
          textRowsToJson rows = Except.ok objs →
          sqliteExecuteQuery q fetchS execS = Except.ok (Json.arr objs, rows.length)
          ∧ postgresExecuteQuery q fetchS execS
            = Except.ok (Json.arr objs, rows.length))
        ∧ (∀ rows, fetchM = Except.ok rows →
          mysqlExecuteQuery q fetchM execM
            = Except.ok (Json.arr (rows.map mysqlRowToJson), rows.length)))
    ∧ (isSelectQuery q = false →
        (∀ n, execS = Except.ok n →
          sqliteExecuteQuery q fetchS execS = Except.ok (Json.null, n)
          ∧ postgresExecuteQuery q fetchS execS = Except.ok (Json.null, n))
        ∧ (∀ n, execM = Except.ok n →
          mysqlExecuteQuery q fetchM execM = Except.ok (Json.null, n))) := by
  refine ⟨rfl, fun hq => ⟨fun rows objs hf hr => ?_, fun rows hf => ?_⟩,
    fun hq => ⟨fun n he => ?_, fun n he => ?_⟩⟩
  · constructor <;> simp [postgresExecuteQuery, sqliteExecuteQuery, hq, hf, hr]
  · simp [mysqlExecuteQuery, hq, hf]
  · constructor <;> simp [postgresExecuteQuery, sqliteExecuteQuery, hq, he]
  · simp [mysqlExecuteQuery, hq, he]

/-- C6 witness: a concrete SELECT takes the read path with row count 1
and a concrete INSERT takes the write path with the driver-reported
affected count. -/
theorem execute_query_dispatch_witness :
    sqliteExecuteQuery "  SELECT 1"
        (Except.ok [[("1", Except.ok (some "1"))]]) (Except.ok 0)
      = Except.ok (Json.arr [Json.obj [("1", Json.str "1")]], 1)
    ∧ mysqlExecuteQuery "INSERT INTO t VALUES (1)" (Except.ok []) (Except.ok 1)
      = Except.ok (Json.null, 1) :=
  ⟨((execute_query_dispatch "  SELECT 1"
        (Except.ok [[("1", Except.ok (some "1"))]]) (Except.ok 0)
        (Except.ok []) (Except.ok 0)).2.1 (by decide)).1
      [[("1", Except.ok (some "1"))]] [Json.obj [("1", Json.str "1")]] rfl rfl |>.1,
    ((execute_query_dispatch "INSERT INTO t VALUES (1)"
        (Except.ok []) (Except.ok 0) (Except.ok []) (Except.ok 1)).2.2
      (by decide)).2 1 rfl⟩

/-- C7: the MySQL read path converts each cell by an ordered fallback in
which the first successful typed accessor wins — string, then raw bytes
rendered as the "(binary) " prefix followed by standard base64 (with the
original bytes recoverable by base64-decoding), then stringified 64-bit
integer, then stringified 64-bit float — and emits the unknown-type
marker when all four accessors fail; a SQL NULL (which decodes as a
successful None) yields JSON null. -/
theorem mysql_cell_decode_chain (c : MySqlCell) :
    (∀ s, c.asString = Except.ok (some s) → mysqlCellValue c = Json.str s)
    ∧ (c.asString = Except.ok none → mysqlCellValue c = Json.null)
    ∧ (∀ e bytes, c.asString = Except.error e →
        c.asBytes = Except.ok (some bytes) →
        mysqlCellValue c = Json.str ("(binary) " ++ base64Encode bytes)
        ∧ base64DecodeCore (base64Encode bytes).toList = some bytes)
    ∧ (∀ e1 e2 n, c.asString = Except.error e1 → c.asBytes = Except.error e2 →
        c.asInt = Except.ok (some n) → mysqlCellValue c = Json.str (toString n))
    ∧ (∀ e1 e2 e3 f, c.asString = Except.error e1 →
        c.asBytes = Except.error e2 → c.asInt = Except.error e3 →
        c.asFloat = Except.ok (some f) → mysqlCellValue c = Json.str f)
    ∧ (∀ e1 e2 e3 e4, c.asString = Except.error e1 →
        c.asBytes = Except.error e2 → c.asInt = Except.error e3 →
        c.asFloat = Except.error e4 →
        mysqlCellValue c = Json.str ("(unknown type: " ++ c.typeName ++ ")")) := by
  refine ⟨fun s h1 => ?_, fun h1 => ?_, fun e bytes h1 h2 => ⟨?_, ?_⟩,
    fun e1 e2 n h1 h2 h3 => ?_, fun e1 e2 e3 f h1 h2 h3 h4 => ?_,
    fun e1 e2 e3 e4 h1 h2 h3 h4 => ?_⟩
  · simp [mysqlCellValue, h1]
  · simp [mysqlCellValue, h1]
  · simp [mysqlCellValue, h1, h2]
  · have := base64_roundtrip bytes
    simpa [base64Encode] using this
  · simp [mysqlCellValue, h1, h2, h3]
  · simp [mysqlCellValue, h1, h2, h3, h4]
  · simp [mysqlCellValue, h1, h2, h3, h4]

/-- C7 witness: a byte-string cell (string accessor fails, bytes succeed)
produces the prefixed base64 rendering, whose payload decodes back to
the original bytes. -/
theorem mysql_cell_decode_chain_witness :
    mysqlCellValue ⟨Except.error "type mismatch",
        Except.ok (some [(0 : Fin 256), 1, 2]), Except.error "t",
        Except.error "t", "BLOB"⟩
      = Json.str "(binary) AAEC"
    ∧ base64DecodeCore ("AAEC".toList) = some [(0 : Fin 256), 1, 2] :=
  (mysql_cell_decode_chain ⟨Except.error "type mismatch",
      Except.ok (some [(0 : Fin 256), 1, 2]), Except.error "t",
      Except.error "t", "BLOB"⟩).2.2.1 "type mismatch"
    [(0 : Fin 256), 1, 2] rfl rfl

/-- C8: get_pool runs the initializer at most once per handle and the
recorded outcome is permanent: after the first call the handle state is
fixed, every later call returns the first call's result (the same pool
on success, None on failure) without running the initializer again, so a
failed handle is never retried. -/
theorem get_pool_once_permanent (P : Type)
    (init : DBConnectionOptions → Option P) (c : DBConnectionState P) :
    (∀ n, get_pool_calls P init c (n + 1) = (get_pool P init c).conn)
    ∧ (∀ n, (get_pool P init (get_pool_calls P init c (n + 1))).result
          = (get_pool P init c).result
        ∧ (get_pool P init (get_pool_calls P init c (n + 1))).ranInit = false)
    ∧ (∀ n, get_pool_init_runs P init c n ≤ 1) := by
  have hcalls : ∀ n, get_pool_calls P init c (n + 1) = (get_pool P init c).conn := by
    intro n
    induction n with
    | zero => rfl
    | succ m ih =>
        show (get_pool P init (get_pool_calls P init c (m + 1))).conn
          = (get_pool P init c).conn
        rw [ih, get_pool_stable]
  have hlater : ∀ n,
      (get_pool P init (get_pool_calls P init c (n + 1))).result
        = (get_pool P init c).result
      ∧ (get_pool P init (get_pool_calls P init c (n + 1))).ranInit = false := by
    intro n
    rw [hcalls n, get_pool_stable]
    exact ⟨rfl, rfl⟩
  refine ⟨hcalls, hlater, fun n => ?_⟩
  induction n with
  | zero => exact Nat.zero_le 1
  | succ m ih =>
      match m with
      | 0 =>
          show 0 + (if (get_pool P init (get_pool_calls P init c 0)).ranInit
            then 1 else 0) ≤ 1
          split <;> omega
      | k + 1 =>
          show get_pool_init_runs P init c (k + 1) +
            (if (get_pool P init (get_pool_calls P init c (k + 1))).ranInit
              then 1 else 0) ≤ 1
          rw [(hlater k).2]
          simpa using ih

end DbViewer
